import Mathlib

/-!
Shallow embedding of `docker-list-tags.py`: a Docker Registry HTTP API V2
client (`Registry` class) and its CLI driver.  HTTP traffic is modelled by a
`World` function from requests to responses; Python exceptions are modelled
with `Except` over an explicit `PyError` type; the mutable bearer token is
threaded through a `Registry` record; every operation additionally returns
the ordered list of observable events (HTTP requests issued and token
fetches) it performed.
-/

set_option autoImplicit false

/-- JSON values, as produced by `json.load` / `json.loads`. -/
inductive Json where
  | null : Json
  | bool : Bool → Json
  | num : Int → Json
  | str : String → Json
  | arr : List Json → Json
  | obj : List (String × Json) → Json
deriving Repr

/-- An HTTP request as built by `urllib.request.Request(url, method=..., headers=...)`. -/
structure HttpRequest where
  url : String
  method : String
  headers : List (String × String)
deriving Repr, DecidableEq

/-- An HTTP response / `urllib.error.HTTPError` payload: url, status code,
reason string (`msg`), response headers, and the response body given as its
parsed JSON value (`none` models an empty body). -/
structure HttpResponse where
  url : String
  code : Nat
  msg : String
  headers : List (String × String)
  body : Option Json
deriving Repr

/-- Outcome of `urllib.request.urlopen`: a successful response, or an
`HTTPError` raised for an error status. -/
inductive UrlopenResult where
  | ok : HttpResponse → UrlopenResult
  | httpError : HttpResponse → UrlopenResult
deriving Repr

/-- The network: a deterministic mapping from requests to urlopen outcomes. -/
def World : Type := HttpRequest → UrlopenResult

/-- Python exceptions that the script can raise. -/
inductive PyError where
  | httpError : HttpResponse → PyError
  | keyError : String → PyError
  | typeError : String → PyError
  | jsonError : String → PyError
deriving Repr

/-- Observable events: an HTTP request issued via urlopen, or entry into
`get_token(realm, service, scope)`. -/
inductive Event where
  | request : HttpRequest → Event
  | tokenFetch : String → String → String → Event
deriving Repr

/-- The `Registry` object: base url and the mutable bearer token. -/
structure Registry where
  url : String
  token : Option String
deriving Repr, DecidableEq

/-! ### Small Python-semantics helpers -/

/-- Lookup in an association list where a later binding for the same key
overrides an earlier one (Python dict built left to right). -/
def dictGet (pairs : List (String × String)) (k : String) : Option String :=
  match pairs with
  | [] => none
  | (k0, v0) :: rest =>
    match dictGet rest k with
    | some v => some v
    | none => if k0 = k then some v0 else none

/-- Lookup of a key in a JSON object field list (last binding wins, as in
`json.loads`). -/
def objGet (fields : List (String × Json)) (k : String) : Option Json :=
  match fields with
  | [] => none
  | (k0, v0) :: rest =>
    match objGet rest k with
    | some v => some v
    | none => if k0 = k then some v0 else none

/-- Python subscript `j[k]` on a decoded JSON value: `KeyError` when the key
is missing from an object, `TypeError` when the value is not a dict. -/
def jsonGet (j : Json) (k : String) : Except PyError Json :=
  match j with
  | .obj fields =>
    match objGet fields k with
    | some v => .ok v
    | none => .error (.keyError k)
  | _ => .error (.typeError "indices must be valid for this type")

/-- `headers[k] = v` on a Python dict: replace in place when present,
append otherwise. -/
def setHeader (hs : List (String × String)) (k v : String) : List (String × String) :=
  if hs.any (fun p => p.1 = k) then
    hs.map (fun p => if p.1 = k then (p.1, v) else p)
  else hs ++ [(k, v)]

/-- ASCII lower-casing of a character (HTTP header names are ASCII). -/
def charLower (c : Char) : Char :=
  if 'A' ≤ c && c ≤ 'Z' then Char.ofNat (c.toNat + 32) else c

/-- ASCII lower-casing of a string. -/
def strLower (s : String) : String :=
  String.mk (s.toList.map charLower)

/-- `HTTPResponse.getheader(name)`: case-insensitive lookup, all matching
header values joined with a comma-space; `None` when absent. -/
def getHeaderJoined (hs : List (String × String)) (name : String) : Option String :=
  let matching := hs.filter (fun p => strLower p.1 = strLower name)
  if matching.isEmpty then none
  else some (", ".intercalate (matching.map Prod.snd))

/-- Characters matched by the regex class `\s`. -/
def isPySpace (c : Char) : Bool :=
  c = ' ' || c = '\t' || c = '\n' || c = '\r' || c = '\x0b' || c = '\x0c'

/-- Characters matched by the regex class `\w` (ASCII reading). -/
def isWordChar (c : Char) : Bool :=
  c.isAlphanum || c = '_'

/-- Length of the maximal prefix of whitespace characters. -/
def leadingSpaces : List Char → Nat
  | [] => 0
  | c :: cs => if isPySpace c then leadingSpaces cs + 1 else 0

/-- `re.search(r"Bearer\s+", auth).end()`: the end index of the leftmost
occurrence of the literal `Bearer` followed by one or more whitespace
characters (greedy), or `none` when the pattern does not occur. -/
def bearerEnd : List Char → Option Nat
  | [] => none
  | c :: cs =>
    match c :: cs with
    | 'B' :: 'e' :: 'a' :: 'r' :: 'e' :: 'r' :: c6 :: rest =>
      if isPySpace c6 then some (7 + leadingSpaces rest)
      else (bearerEnd cs).map (· + 1)
    | _ => (bearerEnd cs).map (· + 1)

/-- Maximal prefix of `\w` characters, with the remainder. -/
def takeWord : List Char → List Char × List Char
  | [] => ([], [])
  | c :: cs =>
    if isWordChar c then
      let (w, r) := takeWord cs
      (c :: w, r)
    else ([], c :: cs)

/-- Maximal prefix of characters in the class `[^ ",]`, with the remainder. -/
def takeUnquoted : List Char → List Char × List Char
  | [] => ([], [])
  | c :: cs =>
    if c = ' ' || c = '"' || c = ',' then ([], c :: cs)
    else
      let (w, r) := takeUnquoted cs
      (c :: w, r)

/-- Content up to the next `"` (at least one character required), and the
remainder after the closing quote; `none` when there is no closing quote or
the content would be empty. -/
def takeQuoted : List Char → Option (List Char × List Char)
  | [] => none
  | c :: cs =>
    if c = '"' then none
    else
      match cs.takeWhile (fun d => ¬ d = '"') , cs.dropWhile (fun d => ¬ d = '"') with
      | content, '"' :: rest => some (c :: content, rest)
      | _, _ => none

/-- One attempted match of `(\w+)=(?:([^ ",]+)|"([^"]+)")` anchored at the
head of the list: the key, the value (`group[1] or group[2]`), and the
remainder after the match. -/
def tryMatchAt (l : List Char) : Option (String × String × List Char) :=
  let (w, r1) := takeWord l
  if w.isEmpty then none
  else
    match r1 with
    | '=' :: r2 =>
      match r2 with
      | '"' :: r3 =>
        match takeQuoted r3 with
        | some (content, rest) => some (String.mk w, String.mk content, rest)
        | none => none
      | _ =>
        let (v, r3) := takeUnquoted r2
        if v.isEmpty then none else some (String.mk w, String.mk v, r3)
    | _ => none

/-- Fuelled scan implementing `re.findall`: try a match at each position,
moving one character forward on failure and past the match on success. -/
def scanKVFuel : Nat → List Char → List (String × String)
  | 0, _ => []
  | _ + 1, [] => []
  | fuel + 1, c :: cs =>
    match tryMatchAt (c :: cs) with
    | some (k, v, rest) => (k, v) :: scanKVFuel fuel rest
    | none => scanKVFuel fuel cs

/-- `re.findall(r'(\w+)=(?:([^ ",]+)|"([^"]+)")', s)` with each tuple reduced
to `(key, group[1] or group[2])`. -/
def scanKV (l : List Char) : List (String × String) :=
  scanKVFuel l.length l

/-! ### Percent-encoding (`urllib.parse.urlencode`, i.e. `quote_plus`) -/

/-- UTF-8 bytes of a character, as natural numbers. -/
def utf8Bytes (c : Char) : List Nat :=
  let n := c.toNat
  if n < 128 then [n]
  else if n < 2048 then [192 + n / 64, 128 + n % 64]
  else if n < 65536 then [224 + n / 4096, 128 + (n / 64) % 64, 128 + n % 64]
  else [240 + n / 262144, 128 + (n / 4096) % 64, 128 + (n / 64) % 64, 128 + n % 64]

/-- Uppercase hexadecimal digit. -/
def hexDigitU (n : Nat) : Char :=
  if n < 10 then Char.ofNat (48 + n) else Char.ofNat (55 + n)

/-- Lowercase hexadecimal digit. -/
def hexDigitL (n : Nat) : Char :=
  if n < 10 then Char.ofNat (48 + n) else Char.ofNat (87 + n)

/-- `quote_plus` on a single byte. -/
def quoteByte (n : Nat) : String :=
  if (65 ≤ n && n ≤ 90) || (97 ≤ n && n ≤ 122) || (48 ≤ n && n ≤ 57)
      || n = 95 || n = 46 || n = 45 || n = 126 then
    String.singleton (Char.ofNat n)
  else if n = 32 then "+"
  else "%" ++ String.singleton (hexDigitU (n / 16)) ++ String.singleton (hexDigitU (n % 16))

/-- `urllib.parse.quote_plus` over the UTF-8 encoding of a string. -/
def quotePlus (s : String) : String :=
  String.join ((s.toList.map (fun c => (utf8Bytes c).map quoteByte)).map String.join)

/-- `urlencode({"service": service, "scope": scope})`. -/
def urlencodeServiceScope (service scope : String) : String :=
  "service=" ++ quotePlus service ++ "&scope=" ++ quotePlus scope

/-! ### Python `str`/`repr` of decoded JSON values -/

/-- One escaped character of a Python string repr delimited by quote `q`. -/
def strReprChar (q : Char) (c : Char) : String :=
  if c = '\\' then "\\\\"
  else if c = q then "\\" ++ String.singleton q
  else if c = '\n' then "\\n"
  else if c = '\r' then "\\r"
  else if c = '\t' then "\\t"
  else if c.toNat < 32 || c.toNat = 127 then
    "\\x" ++ String.singleton (hexDigitL (c.toNat / 16)) ++ String.singleton (hexDigitL (c.toNat % 16))
  else String.singleton c

/-- Python `repr` of a string: single quotes by default, double quotes when
the string holds a single quote but no double quote. -/
def strRepr (s : String) : String :=
  let q : Char := if s.toList.contains '\'' && !(s.toList.contains '"') then '"' else '\''
  String.singleton q ++ String.join (s.toList.map (strReprChar q)) ++ String.singleton q

mutual

/-- Python `repr` of a value decoded from JSON. -/
def pyRepr : Json → String
  | .null => "None"
  | .bool b => if b then "True" else "False"
  | .num n => toString n
  | .str s => strRepr s
  | .arr l => "[" ++ pyReprList l ++ "]"
  | .obj fs => "\x7b" ++ pyReprFields fs ++ "\x7d"

/-- Comma-separated reprs of list elements. -/
def pyReprList : List Json → String
  | [] => ""
  | [x] => pyRepr x
  | x :: y :: rest => pyRepr x ++ ", " ++ pyReprList (y :: rest)

/-- Comma-separated reprs of dict items. -/
def pyReprFields : List (String × Json) → String
  | [] => ""
  | [(k, v)] => strRepr k ++ ": " ++ pyRepr v
  | (k, v) :: f :: rest => strRepr k ++ ": " ++ pyRepr v ++ ", " ++ pyReprFields (f :: rest)

end

/-- Python `str` of a value decoded from JSON (`"{}".format(x)`). -/
def pyStr (j : Json) : String :=
  match j with
  | .str s => s
  | _ => pyRepr j

/-! ### The `Registry` class operations -/

/-- `Registry.get_token(url, service, scope)` (source lines 33-45): GET the
realm with urlencoded `service`/`scope`; on a non-200 success status raise an
`HTTPError` with message `Could not get auth token`; otherwise return the
`token` field of the JSON body (stored into `self.token` by the caller side
of this embedding).  Returns the outcome, and the events performed. -/
def get_token (world : World) (url service scope : String) :
    Except PyError String × List Event :=
  let req : HttpRequest := ⟨url ++ "?" ++ urlencodeServiceScope service scope, "GET", []⟩
  match world req with
  | .httpError r => (.error (.httpError r), [.request req])
  | .ok r =>
    if r.code ≠ 200 then
      (.error (.httpError { r with msg := "Could not get auth token" }), [.request req])
    else
      match r.body with
      | none => (.error (.jsonError "Expecting value"), [.request req])
      | some j =>
        match jsonGet j "token" with
        | .error e => (.error e, [.request req])
        | .ok (.str t) => (.ok t, [.request req])
        | .ok _ => (.error (.typeError "can only concatenate str to str"), [.request req])

/-- The headers of the initial request of `api_call` (source lines 48-50):
the supplied headers, with `Authorization: Bearer <token>` set when a token
is currently held. -/
def initialHeaders (token : Option String) (headers0 : List (String × String)) :
    List (String × String) :=
  match token with
  | some t => setHeader headers0 "Authorization" ("Bearer " ++ t)
  | none => headers0

/-- `Registry.api_call(path, method, headers)` (source lines 47-78).  Issues
the request; on an `HTTPError` other than 401 re-raises it.  On a 401 it
reads the `WWW-Authenticate` header (absent header: `re.search` on `None`
raises a `TypeError`), searches for `Bearer\s+` (no match: re-raise the
original error), extracts `key=value` pairs from the rest of the header,
looks up `realm`, `service`, `scope` (a missing key raises `KeyError`),
calls `get_token`, and retries the request once with the refreshed token.
Returns the outcome, the updated registry, and the events performed. -/
def api_call (world : World) (reg : Registry) (path : String)
    (method : String) (headers0 : List (String × String)) :
    Except PyError HttpResponse × Registry × List Event :=
  let headers := initialHeaders reg.token headers0
  let req1 : HttpRequest := ⟨reg.url ++ path, method, headers⟩
  match world req1 with
  | .ok resp => (.ok resp, reg, [.request req1])
  | .httpError resp =>
    if resp.code ≠ 401 then (.error (.httpError resp), reg, [.request req1])
    else
      match getHeaderJoined resp.headers "WWW-Authenticate" with
      | none => (.error (.typeError "expected string or bytes-like object"), reg, [.request req1])
      | some auth =>
        match bearerEnd auth.toList with
        | none => (.error (.httpError resp), reg, [.request req1])
        | some i =>
          let pairs := scanKV (auth.toList.drop i)
          match dictGet pairs "realm" with
          | none => (.error (.keyError "realm"), reg, [.request req1])
          | some realm =>
            match dictGet pairs "service" with
            | none => (.error (.keyError "service"), reg, [.request req1])
            | some service =>
              match dictGet pairs "scope" with
              | none => (.error (.keyError "scope"), reg, [.request req1])
              | some scope =>
                match get_token world realm service scope with
                | (.error e, tokEvs) =>
                  (.error e, reg, [.request req1, .tokenFetch realm service scope] ++ tokEvs)
                | (.ok newTok, tokEvs) =>
                  let headers2 := setHeader headers "Authorization" ("Bearer " ++ newTok)
                  let req2 : HttpRequest := ⟨reg.url ++ path, method, headers2⟩
                  let reg' : Registry := { reg with token := some newTok }
                  match world req2 with
                  | .ok resp2 =>
                    (.ok resp2, reg',
                      [.request req1, .tokenFetch realm service scope] ++ tokEvs ++ [.request req2])
                  | .httpError resp2 =>
                    (.error (.httpError resp2), reg',
                      [.request req1, .tokenFetch realm service scope] ++ tokEvs ++ [.request req2])

/-- Decode the `tags` field of a tag-list body as a list of strings. -/
def asStringList (j : Json) : Option (List String) :=
  match j with
  | .arr l =>
    l.foldr (fun x acc =>
      match x, acc with
      | .str s, some ss => some (s :: ss)
      | _, _ => none) (some [])
  | _ => none

/-- `Registry.list_tags(name)` (source lines 80-82): GET
`/v2/{name}/tags/list` and return the `tags` field of the JSON body. -/
def list_tags (world : World) (reg : Registry) (name : String) :
    Except PyError (List String) × Registry × List Event :=
  match api_call world reg ("/v2/" ++ name ++ "/tags/list") "GET" [] with
  | (.error e, reg', evs) => (.error e, reg', evs)
  | (.ok resp, reg', evs) =>
    match resp.body with
    | none => (.error (.jsonError "Expecting value"), reg', evs)
    | some j =>
      match jsonGet j "tags" with
      | .error e => (.error e, reg', evs)
      | .ok tj =>
        match asStringList tj with
        | none => (.error (.typeError "tags is not a list of strings"), reg', evs)
        | some tags => (.ok tags, reg', evs)

/-- The Accept header sent when asking for a manifest list digest. -/
def manifestListMediaType : String :=
  "application/vnd.docker.distribution.manifest.list.v2+json"

/-- `Registry.get_manifests_list_digest(name, ref)` (source lines 84-92):
HEAD `/v2/{name}/manifests/{ref}` with the manifest-list Accept header and
return the `Docker-Content-Digest` response header (possibly `None`). -/
def get_manifests_list_digest (world : World) (reg : Registry) (name ref : String) :
    Except PyError (Option String) × Registry × List Event :=
  match api_call world reg ("/v2/" ++ name ++ "/manifests/" ++ ref) "HEAD"
      [("Accept", manifestListMediaType)] with
  | (.error e, reg', evs) => (.error e, reg', evs)
  | (.ok resp, reg', evs) => (.ok (getHeaderJoined resp.headers "Docker-Content-Digest"), reg', evs)

/-- `images.setdefault(digest, []).append(tag)` on an insertion-ordered dict
represented as an association list with distinct keys. -/
def setdefaultAppend (images : List (Option String × List String))
    (digest : Option String) (tag : String) : List (Option String × List String) :=
  if images.any (fun p => p.1 = digest) then
    images.map (fun p => if p.1 = digest then (p.1, p.2 ++ [tag]) else p)
  else images ++ [(digest, [tag])]

/-- The `for tag in tags` loop of `Registry.list_images` (source lines
97-99), threading the registry, the accumulated dict and the event log. -/
def imagesLoop (world : World) (name : String) :
    Registry → List (Option String × List String) → List Event → List String →
    Except PyError (List (Option String × List String)) × Registry × List Event
  | reg, images, evs, [] => (.ok images, reg, evs)
  | reg, images, evs, tag :: rest =>
    match get_manifests_list_digest world reg name tag with
    | (.error e, reg', evs') => (.error e, reg', evs ++ evs')
    | (.ok digest, reg', evs') =>
      imagesLoop world name reg' (setdefaultAppend images digest tag) (evs ++ evs') rest

/-- `Registry.list_images(name)` (source lines 94-101): list the tags, then
resolve the manifest-list digest of each tag in order, grouping tags by
digest with `dict.setdefault`. -/
def list_images (world : World) (reg : Registry) (name : String) :
    Except PyError (List (Option String × List String)) × Registry × List Event :=
  match list_tags world reg name with
  | (.error e, reg', evs) => (.error e, reg', evs)
  | (.ok tags, reg', evs) => imagesLoop world name reg' [] evs tags

/-! ### The CLI driver (`__main__`, source lines 104-155) -/

/-- Split at the first occurrence of `sep`, returning the parts before and
after; when `sep` does not occur, the result is `none`. -/
def splitFirst : List Char → Char → Option (List Char × List Char)
  | [], _ => none
  | c :: cs, sep =>
    if c = sep then some ([], cs)
    else
      match splitFirst cs sep with
      | none => none
      | some (a, b) => some (c :: a, b)

/-- Python `s.partition(sep)` reduced to the pair (before, after); when the
separator is absent this is `(s, "")`, matching the use sites which only
test the after-part for emptiness. -/
def pyPartition (s : String) (sep : Char) : String × String :=
  match splitFirst s.toList sep with
  | none => (s, "")
  | some (a, b) => (String.mk a, String.mk b)

/-- Reference parsing (source lines 125-129): partition on `@` first, then
on `:`, defaulting the disambiguator to `latest`. -/
def parseNameTag (ref : String) : String × String :=
  let p1 := pyPartition ref '@'
  if p1.2 = "" then
    let p2 := pyPartition ref ':'
    if p2.2 = "" then (p2.1, "latest") else p2
  else p1

/-- Repository-name normalization (source lines 132-133): prefix `library/`
when the name holds no slash (`"/" not in name`, a one-character substring
test, is membership of `'/'` among the characters). -/
def normalizeName (name : String) : String :=
  if '/' ∈ name.toList then name else "library/" ++ name

/-- Python truthiness of the `tag` variable: `None` and the empty string are
falsy. -/
def pyTruthy (tag : Option String) : Bool :=
  match tag with
  | none => false
  | some s => !(s = "")

/-- Parsed command line arguments. -/
structure Args where
  name : String
  all : Bool
  token : Option String
  url : String
deriving Repr

/-- The values computed by the driver before the `try` block (source lines
123-133): the registry, the normalized repository name, and the
disambiguator (`none` when `--all` discards it). -/
def driverParams (args : Args) : Registry × String × Option String :=
  let reg : Registry := ⟨args.url, args.token⟩
  let p := parseNameTag args.name
  let tag : Option String := if args.all then none else some p.2
  (reg, normalizeName p.1, tag)

/-- Python dict lookup `images[digest]` over the insertion-ordered map. -/
def lookupImages (d : Option String) :
    List (Option String × List String) → Option (List String)
  | [] => none
  | (k, v) :: rest => if k = d then some v else lookupImages d rest

/-- Rendering of a dict key when a `KeyError` is reported. -/
def keyStr (d : Option String) : String :=
  match d with
  | none => "None"
  | some s => s

/-- The `--all` output loop (source lines 144-145): one line per digest; a
`None` digest key makes `digest + ": "` raise a `TypeError`. -/
def renderAll : List (Option String × List String) → Except PyError (List String)
  | [] => .ok []
  | (none, _) :: _ => .error (.typeError "unsupported operand type for +")
  | (some d, tags) :: rest =>
    match renderAll rest with
    | .error e => .error e
    | .ok lines => .ok ((d ++ ": " ++ " ".intercalate tags) :: lines)

/-- The `try` block of the driver (source lines 135-145): resolve the digest
of the requested reference when one was given, list the images, and print
either the single group or all groups. -/
def tryBlock (world : World) (reg : Registry) (name : String) (tag : Option String) :
    Except PyError (List String) × List Event :=
  if pyTruthy tag then
    match get_manifests_list_digest world reg name (tag.getD "") with
    | (.error e, _, evs) => (.error e, evs)
    | (.ok digest, reg1, evs1) =>
      match list_images world reg1 name with
      | (.error e, _, evs2) => (.error e, evs1 ++ evs2)
      | (.ok images, _, evs2) =>
        match lookupImages digest images with
        | none => (.error (.keyError (keyStr digest)), evs1 ++ evs2)
        | some tags => (.ok [" ".intercalate tags], evs1 ++ evs2)
  else
    match list_images world reg name with
    | (.error e, _, evs) => (.error e, evs)
    | (.ok images, _, evs) =>
      match renderAll images with
      | .error e => (.error e, evs)
      | .ok lines => (.ok lines, evs)

/-- Outcome of the whole process: normal termination (exit 0), the handled
HTTP failure path (exit 1), or an uncaught exception (traceback), each with
the lines printed before termination. -/
inductive MainOutcome where
  | success : List String → MainOutcome
  | httpFailure : List String → MainOutcome
  | uncaught : PyError → List String → MainOutcome
deriving Repr

/-- Process exit status of an outcome. -/
def MainOutcome.exitCode : MainOutcome → Nat
  | .success _ => 0
  | .httpFailure _ => 1
  | .uncaught _ _ => 1

/-- `str(exception)` for an `urllib.error.HTTPError`. -/
def httpErrorStr (resp : HttpResponse) : String :=
  "HTTP Error " ++ toString resp.code ++ ": " ++ resp.msg

/-- The `for error in data["errors"]` loop of the handler (source lines
151-153), accumulating printed lines; element-access failures abort the loop
with the lines printed so far. -/
def formatErrorsLoop : List Json → List String → List String × Option PyError
  | [], acc => (acc, none)
  | e :: rest, acc =>
    match jsonGet e "code" with
    | .error err => (acc, some err)
    | .ok c =>
      match jsonGet e "message" with
      | .error err => (acc, some err)
      | .ok m =>
        match jsonGet e "detail" with
        | .error err => (acc ++ [pyStr c ++ ": " ++ pyStr m], some err)
        | .ok d =>
          formatErrorsLoop rest
            (acc ++ [pyStr c ++ ": " ++ pyStr m, "details: " ++ pyRepr d])

/-- The `except HTTPError` handler (source lines 146-155): print the
exception, and when the body is non-empty decode it and print each entry of
its `errors` array, then exit 1. -/
def exceptHandler (resp : HttpResponse) : MainOutcome :=
  let line0 := httpErrorStr resp
  match resp.body with
  | none => .httpFailure [line0]
  | some j =>
    match jsonGet j "errors" with
    | .error e => .uncaught e [line0]
    | .ok (.arr entries) =>
      match formatErrorsLoop entries [line0] with
      | (lines, none) => .httpFailure lines
      | (lines, some e) => .uncaught e lines
    | .ok _ => .uncaught (.typeError "object is not iterable as expected") [line0]

/-- Wrap the `try` block outcome: `HTTPError` is handled, any other
exception escapes as an uncaught traceback. -/
def dispatch (r : Except PyError (List String) × List Event) : MainOutcome × List Event :=
  match r with
  | (.ok lines, evs) => (.success lines, evs)
  | (.error (.httpError resp), evs) => (exceptHandler resp, evs)
  | (.error e, evs) => (.uncaught e [], evs)

/-- The whole driver run for parsed arguments. -/
def mainRun (world : World) (args : Args) : MainOutcome × List Event :=
  let p := driverParams args
  dispatch (tryBlock world p.1 p.2.1 p.2.2)

/-! ### Specification-side definitions for the grouping property -/

/-- Remove every occurrence of `d`. -/
def filterNe {α : Type} [DecidableEq α] (d : α) : List α → List α
  | [] => []
  | x :: xs => if x = d then filterNe d xs else x :: filterNe d xs

/-- Deduplicate a list keeping the first occurrence of each element. -/
def dedupFirst {α : Type} [DecidableEq α] : List α → List α
  | [] => []
  | x :: xs => x :: filterNe x (dedupFirst xs)

/-- The grouping the specification describes: keys are the digests in order
of first occurrence, and each key maps to the tags resolving to it, in the
original tag order. -/
def groupRepr (digestOf : String → Option String) (xs : List String) :
    List (Option String × List String) :=
  (dedupFirst (xs.map digestOf)).map
    (fun d => (d, xs.filter (fun t => decide (digestOf t = d))))

/-! ### Concrete worlds and arguments used to exercise the theorems -/

/-- A 401 response with no `WWW-Authenticate` header at all. -/
def wNoAuthHeader : World := fun req =>
  .httpError ⟨req.url, 401, "Unauthorized", [], none⟩

/-- A 401 response whose `WWW-Authenticate` header holds no `Bearer`
challenge. -/
def wBasicChallenge : World := fun req =>
  .httpError ⟨req.url, 401, "Unauthorized", [("WWW-Authenticate", "Basic realm=x")], none⟩

/-- A 401 response whose `WWW-Authenticate` header holds `Bearer` followed
by text with no usable `key=value` pairs at all. -/
def wBearerNoPairs : World := fun req =>
  .httpError ⟨req.url, 401, "Unauthorized", [("WWW-Authenticate", "Bearer xyzzy")], none⟩

/-- A 401 response whose `Bearer` challenge carries `key=value` pairs but no
`realm` key. -/
def wBearerNoRealm : World := fun req =>
  .httpError ⟨req.url, 401, "Unauthorized",
    [("WWW-Authenticate", "Bearer error=\"insufficient_scope\"")], none⟩

/-- The well-formed challenge header of the specification scenario. -/
def c3AuthHeader : String :=
  "Bearer realm=\"https://auth.example/token\",service=\"registry.example\",scope=\"repo:foo/bar:pull\""

/-- A registry that 401s anonymous requests with a well-formed `Bearer`
challenge, serves the token endpoint, and accepts the refreshed token. -/
def wChallenge : World := fun req =>
  if req.url = "https://auth.example/token?service=registry.example&scope=repo%3Afoo%2Fbar%3Apull" then
    .ok ⟨req.url, 200, "OK", [], some (Json.obj [("token", Json.str "newtok")])⟩
  else if getHeaderJoined req.headers "Authorization" = some "Bearer newtok" then
    .ok ⟨req.url, 200, "OK", [], some (Json.obj [("tags", Json.arr [])])⟩
  else
    .httpError ⟨req.url, 401, "Unauthorized", [("WWW-Authenticate", c3AuthHeader)], none⟩

/-- A registry for the `@digest` scenario: the HEAD on the requested digest
resolves to a different manifest-list digest, and both listed tags share
that resolved digest. -/
def wDigestRef : World := fun req =>
  if req.url = "https://index.docker.io/v2/myrepo/app/manifests/sha256:abcd" then
    .ok ⟨req.url, 200, "OK", [("Docker-Content-Digest", "sha256:resolved")], none⟩
  else if req.url = "https://index.docker.io/v2/myrepo/app/tags/list" then
    .ok ⟨req.url, 200, "OK", [],
      some (Json.obj [("tags", Json.arr [Json.str "t1", Json.str "t2"])])⟩
  else if req.url = "https://index.docker.io/v2/myrepo/app/manifests/t1" then
    .ok ⟨req.url, 200, "OK", [("Docker-Content-Digest", "sha256:resolved")], none⟩
  else if req.url = "https://index.docker.io/v2/myrepo/app/manifests/t2" then
    .ok ⟨req.url, 200, "OK", [("Docker-Content-Digest", "sha256:resolved")], none⟩
  else .httpError ⟨req.url, 404, "Not Found", [], none⟩

/-- The `@digest` command line of the specification scenario. -/
def argsDigestRef : Args :=
  ⟨"myrepo/app@sha256:abcd", false, none, "https://index.docker.io"⟩

/-- A registry with three tags, two of which share a digest. -/
def wGrouping : World := fun req =>
  if req.url = "https://index.docker.io/v2/library/img/tags/list" then
    .ok ⟨req.url, 200, "OK", [],
      some (Json.obj [("tags", Json.arr [Json.str "a", Json.str "b", Json.str "c"])])⟩
  else if req.url = "https://index.docker.io/v2/library/img/manifests/a" then
    .ok ⟨req.url, 200, "OK", [("Docker-Content-Digest", "sha256:d1")], none⟩
  else if req.url = "https://index.docker.io/v2/library/img/manifests/b" then
    .ok ⟨req.url, 200, "OK", [("Docker-Content-Digest", "sha256:d2")], none⟩
  else if req.url = "https://index.docker.io/v2/library/img/manifests/c" then
    .ok ⟨req.url, 200, "OK", [("Docker-Content-Digest", "sha256:d1")], none⟩
  else .httpError ⟨req.url, 404, "Not Found", [], none⟩

/-- The digest assignment realized by `wGrouping`. -/
def digestOfGrouping (t : String) : Option String :=
  if t = "b" then some "sha256:d2" else some "sha256:d1"

/-- A registry that 404s the manifest of the requested reference with the
structured JSON error body of the specification scenario. -/
def wNotFound : World := fun req =>
  .httpError ⟨req.url, 404, "Not Found", [],
    some (Json.obj [("errors", Json.arr
      [Json.obj [("code", Json.str "NAME_UNKNOWN"),
                 ("message", Json.str "repository not found"),
                 ("detail", Json.str "some detail")]])])⟩

/-- The command line of the HTTP 404 scenario. -/
def argsNotFound : Args := ⟨"x", false, none, "https://index.docker.io"⟩

/-- A registry where the digest resolved for the requested reference is
shared by no listed tag. -/
def wOrphanDigest : World := fun req =>
  if req.url = "https://index.docker.io/v2/library/img/manifests/latest" then
    .ok ⟨req.url, 200, "OK", [("Docker-Content-Digest", "sha256:req")], none⟩
  else if req.url = "https://index.docker.io/v2/library/img/tags/list" then
    .ok ⟨req.url, 200, "OK", [],
      some (Json.obj [("tags", Json.arr [Json.str "a"])])⟩
  else if req.url = "https://index.docker.io/v2/library/img/manifests/a" then
    .ok ⟨req.url, 200, "OK", [("Docker-Content-Digest", "sha256:other")], none⟩
  else .httpError ⟨req.url, 404, "Not Found", [], none⟩

/-- The command line of the orphan-digest scenario. -/
def argsOrphan : Args := ⟨"img", false, none, "https://index.docker.io"⟩

/-- Whether an event is an entry into `get_token`. -/
def isTokenFetch : Event → Bool
  | .tokenFetch _ _ _ => true
  | .request _ => false

/-! ### Helper lemmas -/

theorem toList_mk (l : List Char) : (String.mk l).toList = l := rfl

theorem mk_ne_empty {l : List Char} (h : l ≠ []) : String.mk l ≠ "" := by
  intro he
  exact h (by simpa using congrArg String.data he)

theorem splitFirst_not_mem {l : List Char} {sep : Char} (h : sep ∉ l) :
    splitFirst l sep = none := by
  induction l with
  | nil => rfl
  | cons c cs ih =>
    have hc : ¬ c = sep := fun hc => h (by simp [hc])
    have hcs : sep ∉ cs := fun hm => h (List.mem_cons_of_mem _ hm)
    simp [splitFirst, hc, ih hcs]

theorem splitFirst_append {pre post : List Char} {sep : Char} (h : sep ∉ pre) :
    splitFirst (pre ++ sep :: post) sep = some (pre, post) := by
  induction pre with
  | nil => simp [splitFirst]
  | cons c cs ih =>
    have hc : ¬ c = sep := fun hc => h (by simp [hc])
    have hcs : sep ∉ cs := fun hm => h (List.mem_cons_of_mem _ hm)
    simp [splitFirst, hc, ih hcs]

theorem api_call_url (world : World) (reg : Registry) (p m : String)
    (hs : List (String × String)) : ((api_call world reg p m hs).2.1).url = reg.url := by
  unfold api_call
  dsimp only
  repeat' split
  all_goals rfl

theorem api_call_events (world : World) (reg : Registry) (p m : String)
    (hs : List (String × String)) :
    ∃ rest, (api_call world reg p m hs).2.2 =
      Event.request ⟨reg.url ++ p, m, initialHeaders reg.token hs⟩ :: rest := by
  unfold api_call
  dsimp only
  repeat' split
  all_goals exact ⟨_, rfl⟩

theorem list_tags_url (world : World) (reg : Registry) (name : String) :
    ((list_tags world reg name).2.1).url = reg.url := by
  have h := api_call_url world reg ("/v2/" ++ name ++ "/tags/list") "GET" []
  unfold list_tags
  repeat' split
  all_goals simp_all

theorem filterNe_append {α : Type} [DecidableEq α] (d : α) (l1 l2 : List α) :
    filterNe d (l1 ++ l2) = filterNe d l1 ++ filterNe d l2 := by
  induction l1 with
  | nil => rfl
  | cons x xs ih => by_cases hx : x = d <;> simp [filterNe, hx, ih]

theorem mem_filterNe {α : Type} [DecidableEq α] {y d : α} {l : List α} :
    y ∈ filterNe d l ↔ y ∈ l ∧ y ≠ d := by
  induction l with
  | nil => simp [filterNe]
  | cons x xs ih =>
    by_cases hx : x = d
    · subst hx
      simp only [filterNe, if_pos rfl, ih, List.mem_cons]
      tauto
    · simp only [filterNe, if_neg hx, List.mem_cons, ih]
      constructor
      · rintro (rfl | ⟨hy, hne⟩)
        · exact ⟨Or.inl rfl, hx⟩
        · exact ⟨Or.inr hy, hne⟩
      · rintro ⟨rfl | hy, hne⟩
        · exact Or.inl rfl
        · exact Or.inr ⟨hy, hne⟩

theorem mem_dedupFirst {α : Type} [DecidableEq α] {y : α} {l : List α} :
    y ∈ dedupFirst l ↔ y ∈ l := by
  induction l with
  | nil => simp [dedupFirst]
  | cons x xs ih =>
    simp only [dedupFirst, List.mem_cons, mem_filterNe, ih]
    by_cases hy : y = x <;> simp [hy]

theorem dedupFirst_cons {α : Type} [DecidableEq α] (x : α) (l : List α) :
    dedupFirst (x :: l) = x :: filterNe x (dedupFirst l) := rfl

theorem dedupFirst_append_singleton {α : Type} [DecidableEq α] (l : List α) (d : α) :
    dedupFirst (l ++ [d]) = if d ∈ l then dedupFirst l else dedupFirst l ++ [d] := by
  induction l with
  | nil => simp [dedupFirst, filterNe]
  | cons x xs ih =>
    rw [List.cons_append, dedupFirst_cons, dedupFirst_cons, ih]
    by_cases hd : d ∈ xs
    · rw [if_pos hd, if_pos (show d ∈ x :: xs by simp [hd])]
    · by_cases hxd : d = x
      · subst hxd
        rw [if_neg hd, if_pos (List.mem_cons_self d xs), filterNe_append]
        simp [filterNe]
      · have hne : ¬ d ∈ x :: xs := by simp [List.mem_cons, hxd, hd]
        rw [if_neg hd, if_neg hne, filterNe_append]
        simp [filterNe, hxd]

theorem filter_digest_nil {dOf : String → Option String} {xs : List String}
    {d : Option String} (h : ¬ d ∈ xs.map dOf) :
    xs.filter (fun t => decide (dOf t = d)) = [] := by
  induction xs with
  | nil => rfl
  | cons x xs ih =>
    simp only [List.map_cons, List.mem_cons, not_or] at h
    obtain ⟨h1, h2⟩ := h
    have h1' : ¬ dOf x = d := fun he => h1 he.symm
    simp [List.filter_cons, h1', ih h2]

theorem setdefaultAppend_groupRepr (dOf : String → Option String) (xs : List String)
    (t : String) :
    setdefaultAppend (groupRepr dOf xs) (dOf t) t = groupRepr dOf (xs ++ [t]) := by
  unfold setdefaultAppend groupRepr
  rw [List.map_append]
  simp only [List.map_cons, List.map_nil]
  rw [dedupFirst_append_singleton]
  by_cases hmem : dOf t ∈ xs.map dOf
  · rw [if_pos hmem]
    have hany : ((dedupFirst (xs.map dOf)).map
        (fun d => (d, xs.filter (fun s => decide (dOf s = d))))).any
          (fun p => p.1 = dOf t) = true := by
      rw [List.any_eq_true]
      refine ⟨(dOf t, xs.filter (fun s => decide (dOf s = dOf t))), ?_, by simp⟩
      exact List.mem_map_of_mem _ (mem_dedupFirst.mpr hmem)
    rw [if_pos hany, List.map_map]
    apply List.map_congr_left
    intro d _
    by_cases hdt : d = dOf t
    · subst hdt
      simp [List.filter_append, List.filter_cons]
    · have hdt' : ¬ dOf t = d := fun he => hdt he.symm
      simp [hdt, List.filter_append, List.filter_cons, hdt']
  · rw [if_neg hmem]
    have hany : ((dedupFirst (xs.map dOf)).map
        (fun d => (d, xs.filter (fun s => decide (dOf s = d))))).any
          (fun p => p.1 = dOf t) = false := by
      rw [Bool.eq_false_iff]
      intro hc
      rw [List.any_eq_true] at hc
      obtain ⟨p, hp, hpd⟩ := hc
      obtain ⟨d, hd, rfl⟩ := List.mem_map.mp hp
      simp only [decide_eq_true_eq] at hpd
      exact hmem (hpd ▸ mem_dedupFirst.mp hd)
    rw [if_neg (by simp [hany]), List.map_append]
    congr 1
    · apply List.map_congr_left
      intro d hd
      have hdmem : d ∈ xs.map dOf := mem_dedupFirst.mp hd
      have hdt : ¬ dOf t = d := fun he => hmem (he ▸ hdmem)
      simp [List.filter_append, List.filter_cons, hdt]
    · simp [List.filter_append, List.filter_cons, filter_digest_nil hmem]

theorem groupRepr_nil (dOf : String → Option String) : groupRepr dOf [] = [] := rfl

theorem foldl_setdefault_groupRepr (dOf : String → Option String) :
    ∀ (tags pre : List String),
      List.foldl (fun im t => setdefaultAppend im (dOf t) t) (groupRepr dOf pre) tags
        = groupRepr dOf (pre ++ tags) := by
  intro tags
  induction tags with
  | nil => intro pre; simp
  | cons t ts ih =>
    intro pre
    rw [List.foldl_cons, setdefaultAppend_groupRepr, ih (pre ++ [t])]
    simp

theorem imagesLoop_ok (world : World) (U name : String) (dOf : String → Option String) :
    ∀ (tags : List String) (tok : Option String)
      (images : List (Option String × List String)) (evs : List Event),
      (∀ (tok' : Option String) (t : String), t ∈ tags →
        ∃ e, get_manifests_list_digest world ⟨U, tok'⟩ name t = (.ok (dOf t), ⟨U, tok'⟩, e)) →
      ∃ evs', imagesLoop world name ⟨U, tok⟩ images evs tags
        = (.ok (List.foldl (fun im t => setdefaultAppend im (dOf t) t) images tags),
           ⟨U, tok⟩, evs') := by
  intro tags
  induction tags with
  | nil => intro tok images evs _; exact ⟨evs, rfl⟩
  | cons t ts ih =>
    intro tok images evs h
    obtain ⟨e, he⟩ := h tok t (List.mem_cons_self t ts)
    rw [imagesLoop, he, List.foldl_cons]
    exact ih tok _ _ (fun tok' t' ht' => h tok' t' (List.mem_cons_of_mem _ ht'))

theorem gmld_events_eq (world : World) (reg : Registry) (name ref : String) :
    (get_manifests_list_digest world reg name ref).2.2
      = (api_call world reg ("/v2/" ++ name ++ "/manifests/" ++ ref) "HEAD"
          [("Accept", manifestListMediaType)]).2.2 := by
  unfold get_manifests_list_digest
  repeat' split
  all_goals simp_all

theorem mainRun_eq (world : World) (args : Args) (reg : Registry) (name : String)
    (tag : Option String) (h : driverParams args = (reg, name, tag)) :
    mainRun world args = dispatch (tryBlock world reg name tag) := by
  unfold mainRun
  rw [h]

/-! ### The claims -/

/-- C6: for every CLI reference string containing an `@` followed by a
non-empty digest, the parsed disambiguator is the digest (everything after
the first `@`), taking precedence over any `:` tag-like substring of the
reference. -/
theorem c6_digest_precedence (pre post : List Char)
    (h1 : '@' ∉ pre) (h2 : post ≠ []) :
    (parseNameTag (String.mk (pre ++ '@' :: post))).2 = String.mk post := by
  unfold parseNameTag pyPartition
  rw [toList_mk, splitFirst_append h1]
  simp [mk_ne_empty h2]

theorem c6_witness :
    (parseNameTag (String.mk ("myrepo/app".toList ++ '@' :: "sha256:abcd".toList))).2
      = String.mk "sha256:abcd".toList :=
  c6_digest_precedence "myrepo/app".toList "sha256:abcd".toList (by decide) (by decide)

/-- C7: for every CLI reference string containing neither `@` nor `:`, the
resolved tag disambiguator is the string `latest`. -/
theorem c7_default_latest (s : String) (h1 : '@' ∉ s.toList) (h2 : ':' ∉ s.toList) :
    (parseNameTag s).2 = "latest" := by
  unfold parseNameTag pyPartition
  rw [splitFirst_not_mem h1, splitFirst_not_mem h2]
  simp

theorem c7_witness : (parseNameTag "nginx").2 = "latest" :=
  c7_default_latest "nginx" (by decide) (by decide)

/-- C8: the repository name used for the registry calls is `library/` + name
when the parsed name contains no `/`, and the parsed name unchanged when it
already contains a `/`. -/
theorem c8_library_namespace (n : String) :
    ('/' ∉ n.toList → normalizeName n = "library/" ++ n)
    ∧ ('/' ∈ n.toList → normalizeName n = n) := by
  unfold normalizeName
  constructor
  · intro h; rw [if_neg h]
  · intro h; rw [if_pos h]

theorem c8_witness :
    normalizeName "nginx" = "library/nginx" ∧ normalizeName "myrepo/app" = "myrepo/app" :=
  ⟨(c8_library_namespace "nginx").1 (by decide), (c8_library_namespace "myrepo/app").2 (by decide)⟩

/-- C4: whenever `list_tags` returns a tag list and every per-tag digest
resolution succeeds with digest `dOf t` (independently of the token held at
the time), `list_images` returns the grouping whose keys are the digests in
insertion order of first occurrence and whose value at each digest is the
list of tags resolving to it, in the order the tags appeared in the
`list_tags` output (`groupRepr`). -/
theorem c4_grouping (world : World) (U name : String) (tok0 : Option String)
    (tags : List String) (dOf : String → Option String)
    (reg1 : Registry) (evs1 : List Event)
    (h1 : list_tags world ⟨U, tok0⟩ name = (.ok tags, reg1, evs1))
    (h2 : ∀ (tok : Option String) (t : String), t ∈ tags →
      ∃ e, get_manifests_list_digest world ⟨U, tok⟩ name t = (.ok (dOf t), ⟨U, tok⟩, e)) :
    ∃ evs, list_images world ⟨U, tok0⟩ name = (.ok (groupRepr dOf tags), reg1, evs) := by
  have hu : reg1.url = U := by
    have h := list_tags_url world ⟨U, tok0⟩ name
    rw [h1] at h
    exact h
  have hreg : reg1 = ⟨U, reg1.token⟩ := by
    cases reg1
    simp_all
  obtain ⟨evs', hloop⟩ := imagesLoop_ok world U name dOf tags reg1.token [] evs1 h2
  have hfold : List.foldl (fun im t => setdefaultAppend im (dOf t) t) [] tags
      = groupRepr dOf tags := by
    have h := foldl_setdefault_groupRepr dOf tags []
    rw [groupRepr_nil] at h
    simpa using h
  refine ⟨evs', ?_⟩
  simp only [list_images, h1]
  rw [hreg, hloop, hfold]

theorem api_call_ok (world : World) (reg : Registry) (p m : String)
    (hs : List (String × String)) (resp : HttpResponse)
    (h : world ⟨reg.url ++ p, m, initialHeaders reg.token hs⟩ = .ok resp) :
    api_call world reg p m hs
      = (.ok resp, reg, [.request ⟨reg.url ++ p, m, initialHeaders reg.token hs⟩]) := by
  unfold api_call
  dsimp only
  rw [h]

theorem gmld_ok (world : World) (reg : Registry) (name ref : String) (resp : HttpResponse)
    (h : world ⟨reg.url ++ ("/v2/" ++ name ++ "/manifests/" ++ ref), "HEAD",
        initialHeaders reg.token [("Accept", manifestListMediaType)]⟩ = .ok resp) :
    get_manifests_list_digest world reg name ref
      = (.ok (getHeaderJoined resp.headers "Docker-Content-Digest"), reg,
         [.request ⟨reg.url ++ ("/v2/" ++ name ++ "/manifests/" ++ ref), "HEAD",
           initialHeaders reg.token [("Accept", manifestListMediaType)]⟩]) := by
  unfold get_manifests_list_digest
  rw [api_call_ok world reg ("/v2/" ++ name ++ "/manifests/" ++ ref) "HEAD"
    [("Accept", manifestListMediaType)] resp h]

theorem c4_witness :
    ∃ evs, list_images wGrouping ⟨"https://index.docker.io", none⟩ "library/img"
      = (.ok [(some "sha256:d1", ["a", "c"]), (some "sha256:d2", ["b"])],
         ⟨"https://index.docker.io", none⟩, evs) := by
  obtain ⟨evs, h⟩ := c4_grouping wGrouping "https://index.docker.io" "library/img" none
    ["a", "b", "c"] digestOfGrouping ⟨"https://index.docker.io", none⟩
    [Event.request ⟨"https://index.docker.io/v2/library/img/tags/list", "GET", []⟩]
    (by rfl)
    (by
      intro tok t ht
      fin_cases ht
      · exact ⟨[Event.request ⟨"https://index.docker.io" ++ ("/v2/" ++ "library/img" ++ "/manifests/" ++ "a"),
            "HEAD", initialHeaders tok [("Accept", manifestListMediaType)]⟩],
          (gmld_ok wGrouping ⟨"https://index.docker.io", tok⟩ "library/img" "a"
            ⟨"https://index.docker.io/v2/library/img/manifests/a", 200, "OK",
              [("Docker-Content-Digest", "sha256:d1")], none⟩ rfl).trans (by rfl)⟩
      · exact ⟨[Event.request ⟨"https://index.docker.io" ++ ("/v2/" ++ "library/img" ++ "/manifests/" ++ "b"),
            "HEAD", initialHeaders tok [("Accept", manifestListMediaType)]⟩],
          (gmld_ok wGrouping ⟨"https://index.docker.io", tok⟩ "library/img" "b"
            ⟨"https://index.docker.io/v2/library/img/manifests/b", 200, "OK",
              [("Docker-Content-Digest", "sha256:d2")], none⟩ rfl).trans (by rfl)⟩
      · exact ⟨[Event.request ⟨"https://index.docker.io" ++ ("/v2/" ++ "library/img" ++ "/manifests/" ++ "c"),
            "HEAD", initialHeaders tok [("Accept", manifestListMediaType)]⟩],
          (gmld_ok wGrouping ⟨"https://index.docker.io", tok⟩ "library/img" "c"
            ⟨"https://index.docker.io/v2/library/img/manifests/c", 200, "OK",
              [("Docker-Content-Digest", "sha256:d1")], none⟩ rfl).trans (by rfl)⟩)
  exact ⟨evs, h.trans (by rfl)⟩

/-- C1 is false as stated: on a 401 whose `WWW-Authenticate` header is
absent, `api_call` raises a `TypeError` (from `re.search` on `None`) rather
than re-raising the original `HTTPError`; and on a 401 whose header does not
match the Bearer-plus-pairs form but does contain `Bearer` followed by
whitespace, it raises a `KeyError` rather than re-raising. -/
theorem c1_counterexample :
    ((api_call wNoAuthHeader ⟨"u", none⟩ "/p" "GET" []).1
        = .error (.typeError "expected string or bytes-like object")
      ∧ PyError.typeError "expected string or bytes-like object"
          ≠ PyError.httpError ⟨"u/p", 401, "Unauthorized", [], none⟩)
    ∧ ((api_call wBearerNoPairs ⟨"u", none⟩ "/p" "GET" []).1
        = .error (.keyError "realm")
      ∧ PyError.keyError "realm"
          ≠ PyError.httpError
              ⟨"u/p", 401, "Unauthorized", [("WWW-Authenticate", "Bearer xyzzy")], none⟩) :=
  ⟨⟨rfl, fun h => PyError.noConfusion h⟩, ⟨rfl, fun h => PyError.noConfusion h⟩⟩

/-- C1 (amended): on a 401, when the `WWW-Authenticate` header is present
but does not contain `Bearer` followed by whitespace, the original 401
`HTTPError` is re-raised unchanged and no token refresh is attempted; when
the header is absent, a `TypeError` is raised instead (also with no token
refresh and no further request). -/
theorem c1_amended_behavior (world : World) (reg : Registry) (path method : String)
    (headers0 : List (String × String)) (resp : HttpResponse)
    (h1 : world ⟨reg.url ++ path, method, initialHeaders reg.token headers0⟩
        = .httpError resp)
    (h2 : resp.code = 401) :
    (getHeaderJoined resp.headers "WWW-Authenticate" = none →
      api_call world reg path method headers0
        = (.error (.typeError "expected string or bytes-like object"), reg,
           [.request ⟨reg.url ++ path, method, initialHeaders reg.token headers0⟩]))
    ∧ (∀ auth, getHeaderJoined resp.headers "WWW-Authenticate" = some auth →
        bearerEnd auth.toList = none →
        api_call world reg path method headers0
          = (.error (.httpError resp), reg,
             [.request ⟨reg.url ++ path, method, initialHeaders reg.token headers0⟩])) := by
  constructor
  · intro hh
    unfold api_call
    dsimp only
    rw [h1]
    simp [h2, hh]
  · intro auth hh hb
    have hb' : bearerEnd auth.data = none := hb
    unfold api_call
    dsimp only
    rw [h1]
    simp [h2, hh, hb']

theorem c1_amended_witness :
    api_call wNoAuthHeader ⟨"https://index.docker.io", none⟩ "/v2/library/nginx/tags/list" "GET" []
      = (.error (.typeError "expected string or bytes-like object"),
         ⟨"https://index.docker.io", none⟩,
         [.request ⟨"https://index.docker.io" ++ "/v2/library/nginx/tags/list", "GET", []⟩])
    ∧ api_call wBasicChallenge ⟨"https://index.docker.io", none⟩ "/v2/library/nginx/tags/list" "GET" []
      = (.error (.httpError ⟨"https://index.docker.io/v2/library/nginx/tags/list", 401,
            "Unauthorized", [("WWW-Authenticate", "Basic realm=x")], none⟩),
         ⟨"https://index.docker.io", none⟩,
         [.request ⟨"https://index.docker.io" ++ "/v2/library/nginx/tags/list", "GET", []⟩]) :=
  ⟨(c1_amended_behavior wNoAuthHeader ⟨"https://index.docker.io", none⟩
      "/v2/library/nginx/tags/list" "GET" []
      ⟨"https://index.docker.io/v2/library/nginx/tags/list", 401, "Unauthorized", [], none⟩
      rfl rfl).1 rfl,
   (c1_amended_behavior wBasicChallenge ⟨"https://index.docker.io", none⟩
      "/v2/library/nginx/tags/list" "GET" []
      ⟨"https://index.docker.io/v2/library/nginx/tags/list", 401, "Unauthorized",
        [("WWW-Authenticate", "Basic realm=x")], none⟩
      rfl rfl).2 "Basic realm=x" rfl rfl⟩

/-- C9: on a 401 whose `WWW-Authenticate` header carries a `Bearer`
challenge whose extracted `key=value` pairs lack a `realm`, `service` or
`scope` key, `api_call` raises a `KeyError` (not an `HTTPError`), and the
driver dispatch turns such an error into an uncaught traceback with nothing
printed, bypassing the HTTP-error handler. -/
theorem c9_keyerror_missing_keys (world : World) (reg : Registry) (path method : String)
    (headers0 : List (String × String)) (resp : HttpResponse) (auth : String) (i : Nat)
    (h1 : world ⟨reg.url ++ path, method, initialHeaders reg.token headers0⟩
        = .httpError resp)
    (h2 : resp.code = 401)
    (h3 : getHeaderJoined resp.headers "WWW-Authenticate" = some auth)
    (h4 : bearerEnd auth.toList = some i)
    (h5 : dictGet (scanKV (auth.toList.drop i)) "realm" = none
        ∨ dictGet (scanKV (auth.toList.drop i)) "service" = none
        ∨ dictGet (scanKV (auth.toList.drop i)) "scope" = none) :
    ∃ k, (k = "realm" ∨ k = "service" ∨ k = "scope")
      ∧ api_call world reg path method headers0
          = (.error (.keyError k), reg,
             [.request ⟨reg.url ++ path, method, initialHeaders reg.token headers0⟩])
      ∧ (∀ evs, dispatch (.error (.keyError k), evs) = (.uncaught (.keyError k) [], evs)) := by
  have h4' : bearerEnd auth.data = some i := h4
  rcases hr : dictGet (scanKV (List.drop i auth.data)) "realm" with _ | r
  · refine ⟨"realm", Or.inl rfl, ?_, fun evs => rfl⟩
    unfold api_call
    dsimp only
    rw [h1]
    simp [h2, h3, h4', hr]
  · rcases hs : dictGet (scanKV (List.drop i auth.data)) "service" with _ | s
    · refine ⟨"service", Or.inr (Or.inl rfl), ?_, fun evs => rfl⟩
      unfold api_call
      dsimp only
      rw [h1]
      simp [h2, h3, h4', hr, hs]
    · rcases hsc : dictGet (scanKV (List.drop i auth.data)) "scope" with _ | sc
      · refine ⟨"scope", Or.inr (Or.inr rfl), ?_, fun evs => rfl⟩
        unfold api_call
        dsimp only
        rw [h1]
        simp [h2, h3, h4', hr, hs, hsc]
      · rcases h5 with h | h | h <;> simp_all

theorem c9_witness :
    ∃ k, (k = "realm" ∨ k = "service" ∨ k = "scope")
      ∧ api_call wBearerNoRealm ⟨"u", none⟩ "/p" "GET" []
          = (.error (.keyError k), ⟨"u", none⟩, [.request ⟨"u" ++ "/p", "GET", []⟩])
      ∧ (∀ evs, dispatch (.error (.keyError k), evs) = (.uncaught (.keyError k) [], evs)) :=
  c9_keyerror_missing_keys wBearerNoRealm ⟨"u", none⟩ "/p" "GET" []
    ⟨"u/p", 401, "Unauthorized",
      [("WWW-Authenticate", "Bearer error=\"insufficient_scope\"")], none⟩
    "Bearer error=\"insufficient_scope\"" 7 rfl rfl rfl rfl (Or.inl rfl)

/-- C3: on a 401 carrying a well-formed `Bearer` challenge holding `realm`,
`service` and `scope` pairs, `api_call` makes exactly one `get_token` call
with those three extracted parameters and retries the original request
exactly once with `Authorization: Bearer <new token>`: the trace is exactly
the original request, the single token fetch with its token-endpoint
request, and the single retry, and the outcome is whatever the retried
request returns — a second 401 is propagated without another refresh. -/
theorem c3_refresh_retry_once (world : World) (reg : Registry) (path method : String)
    (headers0 : List (String × String)) (resp tokResp : HttpResponse)
    (auth : String) (i : Nat) (r s sc newTok : String) (tokJson : Json)
    (h1 : world ⟨reg.url ++ path, method, initialHeaders reg.token headers0⟩
        = .httpError resp)
    (h2 : resp.code = 401)
    (h3 : getHeaderJoined resp.headers "WWW-Authenticate" = some auth)
    (h4 : bearerEnd auth.toList = some i)
    (h5 : dictGet (scanKV (List.drop i auth.data)) "realm" = some r)
    (h6 : dictGet (scanKV (List.drop i auth.data)) "service" = some s)
    (h7 : dictGet (scanKV (List.drop i auth.data)) "scope" = some sc)
    (h8 : world ⟨r ++ "?" ++ urlencodeServiceScope s sc, "GET", []⟩ = .ok tokResp)
    (h9 : tokResp.code = 200)
    (h10 : tokResp.body = some tokJson)
    (h11 : jsonGet tokJson "token" = .ok (.str newTok)) :
    api_call world reg path method headers0
      = ((match world ⟨reg.url ++ path, method,
            setHeader (initialHeaders reg.token headers0) "Authorization"
              ("Bearer " ++ newTok)⟩ with
          | .ok resp2 => .ok resp2
          | .httpError resp2 => .error (.httpError resp2)),
         { reg with token := some newTok },
         [.request ⟨reg.url ++ path, method, initialHeaders reg.token headers0⟩,
          .tokenFetch r s sc,
          .request ⟨r ++ "?" ++ urlencodeServiceScope s sc, "GET", []⟩,
          .request ⟨reg.url ++ path, method,
            setHeader (initialHeaders reg.token headers0) "Authorization"
              ("Bearer " ++ newTok)⟩])
      ∧ List.filter isTokenFetch
          [.request ⟨reg.url ++ path, method, initialHeaders reg.token headers0⟩,
           .tokenFetch r s sc,
           .request ⟨r ++ "?" ++ urlencodeServiceScope s sc, "GET", []⟩,
           .request ⟨reg.url ++ path, method,
             setHeader (initialHeaders reg.token headers0) "Authorization"
               ("Bearer " ++ newTok)⟩]
          = [Event.tokenFetch r s sc] := by
  have h4' : bearerEnd auth.data = some i := h4
  have hgt : get_token world r s sc
      = (.ok newTok, [.request ⟨r ++ "?" ++ urlencodeServiceScope s sc, "GET", []⟩]) := by
    unfold get_token
    dsimp only
    rw [h8]
    simp [h9, h10, h11]
  constructor
  · unfold api_call
    dsimp only
    rw [h1]
    cases hw : world ⟨reg.url ++ path, method,
        setHeader (initialHeaders reg.token headers0) "Authorization"
          ("Bearer " ++ newTok)⟩ <;>
      simp [h2, h3, h4', h5, h6, h7, hgt, hw]
  · rfl

theorem c3_witness :
    api_call wChallenge ⟨"https://index.docker.io", none⟩ "/v2/foo/bar/tags/list" "GET" []
      = (.ok ⟨"https://index.docker.io/v2/foo/bar/tags/list", 200, "OK", [],
           some (Json.obj [("tags", Json.arr [])])⟩,
         ⟨"https://index.docker.io", some "newtok"⟩,
         [.request ⟨"https://index.docker.io/v2/foo/bar/tags/list", "GET", []⟩,
          .tokenFetch "https://auth.example/token" "registry.example" "repo:foo/bar:pull",
          .request ⟨"https://auth.example/token?service=registry.example&scope=repo%3Afoo%2Fbar%3Apull",
            "GET", []⟩,
          .request ⟨"https://index.docker.io/v2/foo/bar/tags/list", "GET",
            [("Authorization", "Bearer newtok")]⟩])
      ∧ List.filter isTokenFetch
          [.request ⟨"https://index.docker.io/v2/foo/bar/tags/list", "GET", []⟩,
           .tokenFetch "https://auth.example/token" "registry.example" "repo:foo/bar:pull",
           .request ⟨"https://auth.example/token?service=registry.example&scope=repo%3Afoo%2Fbar%3Apull",
             "GET", []⟩,
           .request ⟨"https://index.docker.io/v2/foo/bar/tags/list", "GET",
             [("Authorization", "Bearer newtok")]⟩]
          = [Event.tokenFetch "https://auth.example/token" "registry.example"
              "repo:foo/bar:pull"] := by
  obtain ⟨ha, hb⟩ := c3_refresh_retry_once wChallenge ⟨"https://index.docker.io", none⟩
    "/v2/foo/bar/tags/list" "GET" []
    ⟨"https://index.docker.io/v2/foo/bar/tags/list", 401, "Unauthorized",
      [("WWW-Authenticate", c3AuthHeader)], none⟩
    ⟨"https://auth.example/token?service=registry.example&scope=repo%3Afoo%2Fbar%3Apull",
      200, "OK", [], some (Json.obj [("token", Json.str "newtok")])⟩
    c3AuthHeader 7 "https://auth.example/token" "registry.example" "repo:foo/bar:pull"
    "newtok" (Json.obj [("token", Json.str "newtok")])
    rfl rfl rfl rfl rfl rfl rfl rfl rfl rfl rfl
  exact ⟨ha.trans (by rfl), hb⟩

theorem exceptHandler_exitCode (resp : HttpResponse) :
    (exceptHandler resp).exitCode = 1 := by
  simp only [exceptHandler]
  repeat' split
  all_goals rfl

/-- C10: in single-tag/digest mode, when the digest resolved for the
requested reference is not among the keys of the `list_images` map, the
driver fails with an uncaught `KeyError` (the dict lookup `images[digest]`),
printing nothing — neither a tag line nor the formatted HTTP-error
output. -/
theorem c10_keyerror_unknown_digest (world : World) (args : Args)
    (reg reg1 reg2 : Registry) (name t : String) (d : Option String)
    (imgs : List (Option String × List String)) (evs1 evs2 : List Event)
    (hp : driverParams args = (reg, name, some t))
    (ht : ¬ t = "")
    (h1 : get_manifests_list_digest world reg name t = (.ok d, reg1, evs1))
    (h2 : list_images world reg1 name = (.ok imgs, reg2, evs2))
    (h3 : lookupImages d imgs = none) :
    mainRun world args = (.uncaught (.keyError (keyStr d)) [], evs1 ++ evs2) := by
  rw [mainRun_eq world args reg name (some t) hp]
  unfold tryBlock
  simp [pyTruthy, ht, h1, h2, h3, dispatch]

theorem c10_witness :
    mainRun wOrphanDigest argsOrphan
      = (.uncaught (.keyError "sha256:req") [],
         [.request ⟨"https://index.docker.io/v2/library/img/manifests/latest", "HEAD",
            [("Accept", manifestListMediaType)]⟩,
          .request ⟨"https://index.docker.io/v2/library/img/tags/list", "GET", []⟩,
          .request ⟨"https://index.docker.io/v2/library/img/manifests/a", "HEAD",
            [("Accept", manifestListMediaType)]⟩]) :=
  (c10_keyerror_unknown_digest wOrphanDigest argsOrphan
    ⟨"https://index.docker.io", none⟩ ⟨"https://index.docker.io", none⟩
    ⟨"https://index.docker.io", none⟩ "library/img" "latest" (some "sha256:req")
    [(some "sha256:other", ["a"])]
    [.request ⟨"https://index.docker.io/v2/library/img/manifests/latest", "HEAD",
      [("Accept", manifestListMediaType)]⟩]
    [.request ⟨"https://index.docker.io/v2/library/img/tags/list", "GET", []⟩,
     .request ⟨"https://index.docker.io/v2/library/img/manifests/a", "HEAD",
      [("Accept", manifestListMediaType)]⟩]
    rfl (by decide) rfl rfl rfl).trans (by rfl)

/-- C2 is false as stated: with an `@digest` reference and no `--all`, the
driver DOES issue a manifest-digest resolution HEAD request for that digest
reference before the grouping traffic (it is the very first request of the
run), and the printed group is selected by the digest returned in the
response's `Docker-Content-Digest` header (`sha256:resolved` here), not by
the input digest string `sha256:abcd`, which is no key of the grouping. -/
theorem c2_counterexample :
    (mainRun wDigestRef argsDigestRef).2.head?
      = some (.request ⟨"https://index.docker.io/v2/myrepo/app/manifests/sha256:abcd",
          "HEAD", [("Accept", manifestListMediaType)]⟩)
    ∧ (mainRun wDigestRef argsDigestRef).1 = .success ["t1 t2"]
    ∧ lookupImages (some "sha256:abcd") [(some "sha256:resolved", ["t1", "t2"])] = none :=
  ⟨rfl, rfl, rfl⟩

/-- C2 (amended): with an `@digest` reference and no `--all`, the digest
disambiguator is used as the reference of a manifest-digest HEAD resolution
request issued before the grouping, and the group of tags printed is the one
keyed by the digest returned in that response's `Docker-Content-Digest`
header. -/
theorem c2_amended_resolution (world : World) (args : Args)
    (reg reg1 reg2 : Registry) (name dg : String) (d0 : Option String)
    (imgs : List (Option String × List String)) (grp : List String)
    (evs1 evs2 : List Event)
    (hp : driverParams args = (reg, name, some dg))
    (hdg : ¬ dg = "")
    (h1 : get_manifests_list_digest world reg name dg = (.ok d0, reg1, evs1))
    (h2 : list_images world reg1 name = (.ok imgs, reg2, evs2))
    (h3 : lookupImages d0 imgs = some grp) :
    mainRun world args = (.success [" ".intercalate grp], evs1 ++ evs2)
    ∧ ∃ rest, evs1 = .request ⟨reg.url ++ ("/v2/" ++ name ++ "/manifests/" ++ dg), "HEAD",
        initialHeaders reg.token [("Accept", manifestListMediaType)]⟩ :: rest := by
  constructor
  · rw [mainRun_eq world args reg name (some dg) hp]
    unfold tryBlock
    simp [pyTruthy, hdg, h1, h2, h3, dispatch]
  · have he : (get_manifests_list_digest world reg name dg).2.2 = evs1 := by rw [h1]
    rw [← he, gmld_events_eq]
    exact api_call_events world reg ("/v2/" ++ name ++ "/manifests/" ++ dg) "HEAD"
      [("Accept", manifestListMediaType)]

theorem c2_amended_witness :
    mainRun wDigestRef argsDigestRef
      = (.success ["t1 t2"],
         [.request ⟨"https://index.docker.io/v2/myrepo/app/manifests/sha256:abcd", "HEAD",
            [("Accept", manifestListMediaType)]⟩]
         ++ [.request ⟨"https://index.docker.io/v2/myrepo/app/tags/list", "GET", []⟩,
             .request ⟨"https://index.docker.io/v2/myrepo/app/manifests/t1", "HEAD",
              [("Accept", manifestListMediaType)]⟩,
             .request ⟨"https://index.docker.io/v2/myrepo/app/manifests/t2", "HEAD",
              [("Accept", manifestListMediaType)]⟩])
    ∧ ∃ rest,
        [Event.request ⟨"https://index.docker.io/v2/myrepo/app/manifests/sha256:abcd", "HEAD",
          [("Accept", manifestListMediaType)]⟩]
        = Event.request ⟨"https://index.docker.io/v2/myrepo/app/manifests/sha256:abcd", "HEAD",
            [("Accept", manifestListMediaType)]⟩ :: rest := by
  obtain ⟨ha, hb⟩ := c2_amended_resolution wDigestRef argsDigestRef
    ⟨"https://index.docker.io", none⟩ ⟨"https://index.docker.io", none⟩
    ⟨"https://index.docker.io", none⟩ "myrepo/app" "sha256:abcd" (some "sha256:resolved")
    [(some "sha256:resolved", ["t1", "t2"])] ["t1", "t2"]
    [.request ⟨"https://index.docker.io/v2/myrepo/app/manifests/sha256:abcd", "HEAD",
      [("Accept", manifestListMediaType)]⟩]
    [.request ⟨"https://index.docker.io/v2/myrepo/app/tags/list", "GET", []⟩,
     .request ⟨"https://index.docker.io/v2/myrepo/app/manifests/t1", "HEAD",
      [("Accept", manifestListMediaType)]⟩,
     .request ⟨"https://index.docker.io/v2/myrepo/app/manifests/t2", "HEAD",
      [("Accept", manifestListMediaType)]⟩]
    rfl (by decide) rfl rfl rfl
  exact ⟨ha.trans (by rfl), hb⟩

/-- C5 is false as stated: the details line prints the Python `repr` of the
detail value (`print("details: {!r}".format(...))`), so a string detail is
printed quoted, not verbatim as `details: <detail>`. -/
theorem c5_counterexample :
    (mainRun wNotFound argsNotFound).1
      = .httpFailure ["HTTP Error 404: Not Found", "NAME_UNKNOWN: repository not found",
          "details: " ++ strRepr "some detail"]
    ∧ "details: " ++ strRepr "some detail" ≠ "details: " ++ "some detail" :=
  ⟨rfl, by decide⟩

/-- C5 (amended): when an `HTTPError` reaches the top-level driver, it
prints the exception's string form; then, if the response body is non-empty,
it decodes it as JSON and prints, for each entry of its `errors` array, a
line `<code>: <message>` followed by a line `details: ` holding the Python
repr of the detail value; the process exits with status 1 — and when the
`try` block completes without an `HTTPError`, the printed lines are its
output and the process exits with status 0. -/
theorem c5_amended_error_output (world : World) (args : Args) (reg : Registry)
    (name : String) (tag : Option String) (resp : HttpResponse) (evs : List Event)
    (hp : driverParams args = (reg, name, tag))
    (ht : tryBlock world reg name tag = (.error (.httpError resp), evs)) :
    (resp.body = none →
      mainRun world args = (.httpFailure [httpErrorStr resp], evs))
    ∧ (∀ bj entries lines, resp.body = some bj →
        jsonGet bj "errors" = .ok (.arr entries) →
        formatErrorsLoop entries [httpErrorStr resp] = (lines, none) →
        mainRun world args = (.httpFailure lines, evs))
    ∧ (mainRun world args).1.exitCode = 1
    ∧ (∀ (w : World) (a : Args) (r : Registry) (n : String) (tg : Option String)
        (ls : List String) (es : List Event),
        driverParams a = (r, n, tg) → tryBlock w r n tg = (.ok ls, es) →
        mainRun w a = (.success ls, es) ∧ (mainRun w a).1.exitCode = 0) := by
  have hm : mainRun world args = (exceptHandler resp, evs) := by
    rw [mainRun_eq world args reg name tag hp, ht]
    rfl
  refine ⟨?_, ?_, ?_, ?_⟩
  · intro hb
    rw [hm]
    simp [exceptHandler, hb]
  · intro bj entries lines hb he hf
    rw [hm]
    simp [exceptHandler, hb, he, hf]
  · rw [hm]
    exact exceptHandler_exitCode resp
  · intro w a r n tg ls es hp' ht'
    constructor
    · rw [mainRun_eq w a r n tg hp', ht']
      rfl
    · rw [mainRun_eq w a r n tg hp', ht']
      rfl

theorem c5_witness :
    mainRun wNotFound argsNotFound
      = (.httpFailure ["HTTP Error 404: Not Found", "NAME_UNKNOWN: repository not found",
           "details: " ++ strRepr "some detail"],
         [.request ⟨"https://index.docker.io/v2/library/x/manifests/latest", "HEAD",
            [("Accept", manifestListMediaType)]⟩]) :=
  ((c5_amended_error_output wNotFound argsNotFound
      ⟨"https://index.docker.io", none⟩ "library/x" (some "latest")
      ⟨"https://index.docker.io/v2/library/x/manifests/latest", 404, "Not Found", [],
        some (Json.obj [("errors", Json.arr
          [Json.obj [("code", Json.str "NAME_UNKNOWN"),
                     ("message", Json.str "repository not found"),
                     ("detail", Json.str "some detail")]])])⟩
      [.request ⟨"https://index.docker.io/v2/library/x/manifests/latest", "HEAD",
        [("Accept", manifestListMediaType)]⟩]
      rfl rfl).2.1
    (Json.obj [("errors", Json.arr
      [Json.obj [("code", Json.str "NAME_UNKNOWN"),
                 ("message", Json.str "repository not found"),
                 ("detail", Json.str "some detail")]])])
    [Json.obj [("code", Json.str "NAME_UNKNOWN"),
               ("message", Json.str "repository not found"),
               ("detail", Json.str "some detail")]]
    ["HTTP Error 404: Not Found", "NAME_UNKNOWN: repository not found",
     "details: " ++ strRepr "some detail"]
    rfl rfl (by rfl))
